import Mathlib

/-!
Verification of the ferr_os boot loader and kernel runtime against its
natural-language specification.  The definitions below are shallow
embeddings of the Rust sources:

* `src/shared_lib/src/lib.rs`      — page-table engine (`map_address_impl`,
  `map_address`, `create_next_table`, `get_physical_address`);
* `src/shared_lib/src/addr.rs`     — canonical virtual addresses;
* `src/shared_lib/src/frame_allocator.rs` — physical frame allocator;
* `src/loader/src/main.rs`         — memory-map conversion and kernel ELF
  mapping;
* `src/src/task/timer.rs`, `src/src/apic.rs` — timer tick arithmetic, the
  timer interrupt flag, and the CMOS RTC post-processing.

Machine integers are modelled as `Nat`; the Rust code never overflows in the
modelled paths, and bit operations are translated with `&&&`, `|||`, `>>>`.
-/

namespace FerrOS

/-! ## Page-table engine (src/shared_lib/src/lib.rs) -/

/-- `PageTableEntry::flags().contains(PageTableFlags::PRESENT)`:
bit 0 of the 64-bit entry. -/
def entryPresent (e : Nat) : Bool := e &&& 1 == 1

/-- `PageTableEntry::addr()`: `entry & 0x000ffffffffff000`. -/
def entryAddr (e : Nat) : Nat := e &&& 0x000ffffffffff000

/-- `get_p4_index`: `((virt >> 12 >> 9 >> 9 >> 9) as u16) % ENTRY_COUNT`. -/
def get_p4_index (virt : Nat) : Nat := ((virt >>> 12 >>> 9 >>> 9 >>> 9) % 65536) % 512

/-- `get_p3_index`: `((virt >> 12 >> 9 >> 9) as u16) % ENTRY_COUNT`. -/
def get_p3_index (virt : Nat) : Nat := ((virt >>> 12 >>> 9 >>> 9) % 65536) % 512

/-- `get_p2_index`: `((virt >> 12 >> 9) as u16) % ENTRY_COUNT`. -/
def get_p2_index (virt : Nat) : Nat := ((virt >>> 12 >>> 9) % 65536) % 512

/-- `get_p1_index`: `((virt >> 12) as u16) % ENTRY_COUNT`. -/
def get_p1_index (virt : Nat) : Nat := ((virt >>> 12) % 65536) % 512

/-- The machine state seen by the page-table engine: the contents of every
page table (addressed by the physical address of the table and an entry
index), plus the frames the allocator has not yet handed out (in the order
`FrameAllocator::allocate_frame` will return them). -/
structure PTState where
  mem : Nat → Nat → Nat
  freeFrames : List Nat

/-- Overwrite one page-table entry (`PageTableEntry::set_addr`). -/
def writeEntry (m : Nat → Nat → Nat) (t i v : Nat) : Nat → Nat → Nat :=
  fun a j => if a = t ∧ j = i then v else m a j

/-- Zero a whole table (`PageTable::clear`, performed by
`FrameAllocator::allocate_page_table` on every freshly allocated table). -/
def clearTable (m : Nat → Nat → Nat) (t : Nat) : Nat → Nat → Nat :=
  fun a j => if a = t then 0 else m a j

/-- `create_next_table` from src/shared_lib/src/lib.rs: follow a present
entry, otherwise allocate a table from the allocator (which clears it),
and point the entry at it with flags PRESENT|WRITABLE (`| 3`).
The error string is the panic message of
`FrameAllocator::allocate_page_table` on exhaustion. -/
def create_next_table (s : PTState) (t i : Nat) : PTState × Except String Nat :=
  let e := s.mem t i
  if entryPresent e then
    (s, Except.ok (entryAddr e))
  else
    match s.freeFrames with
    | [] => (s, Except.error "Out of memory - failed to allocate frame")
    | f :: rest =>
      ({ mem := writeEntry (clearTable s.mem f) t i (f ||| 3), freeFrames := rest },
       Except.ok f)

/-- `map_address_impl` from src/shared_lib/src/lib.rs: walk L4→L3→L2
creating tables as needed, then install the L1 leaf with PRESENT|WRITABLE,
failing if the L1 entry is already present.  The returned pair is the
machine state after the call (mutations before a failure persist, as in
the Rust code) and the error, if any. -/
def map_address_impl (s : PTState) (l4 virt phys : Nat) : PTState × Option String :=
  match create_next_table s l4 (get_p4_index virt) with
  | (s1, Except.error e) => (s1, some e)
  | (s1, Except.ok l3t) =>
    match create_next_table s1 l3t (get_p3_index virt) with
    | (s2, Except.error e) => (s2, some e)
    | (s2, Except.ok l2t) =>
      match create_next_table s2 l2t (get_p2_index virt) with
      | (s3, Except.error e) => (s3, some e)
      | (s3, Except.ok l1t) =>
        if entryPresent (s3.mem l1t (get_p1_index virt)) then
          (s3, some "this virtual address already mapped to frame")
        else
          ({ mem := writeEntry s3.mem l1t (get_p1_index virt) (phys ||| 3),
             freeFrames := s3.freeFrames }, none)

/-- `map_address` from src/shared_lib/src/lib.rs: map `virt → phys`; when
`virt` is not page-aligned additionally map `virt + 4096 → phys + 4096`. -/
def map_address (s : PTState) (l4 virt phys : Nat) : PTState × Option String :=
  match map_address_impl s l4 virt phys with
  | (s1, some e) => (s1, some e)
  | (s1, none) =>
    if virt % 4096 = 0 then (s1, none)
    else map_address_impl s1 l4 (virt + 4096) (phys + 4096)

/-- `get_physical_address` from src/shared_lib/src/lib.rs: walk the four
levels, returning `none` at the first non-present entry, else the frame
address stored in the L1 entry. -/
def get_physical_address (s : PTState) (l4 virt : Nat) : Option Nat :=
  let e4 := s.mem l4 (get_p4_index virt)
  if entryPresent e4 then
    let e3 := s.mem (entryAddr e4) (get_p3_index virt)
    if entryPresent e3 then
      let e2 := s.mem (entryAddr e3) (get_p2_index virt)
      if entryPresent e2 then
        let e1 := s.mem (entryAddr e2) (get_p1_index virt)
        if entryPresent e1 then some (entryAddr e1) else none
      else none
    else none
  else none

/-! ## Canonical virtual addresses (src/shared_lib/src/addr.rs) -/

/-- `VirtAddr::new`: `((addr << 16) as i64 >> 16) as u64`, i.e. sign
extension of bit 47 over bits 48..63. -/
def virt_addr_new (addr : Nat) : Nat :=
  if addr &&& 0x800000000000 = 0 then addr % 2 ^ 48
  else addr % 2 ^ 48 + 0xffff000000000000

/-- `VirtAddr::new_checked`: match on `addr & 0xffff800000000000`. -/
def virt_addr_new_checked (addr : Nat) : Except String Nat :=
  if addr &&& 0xffff800000000000 = 0 ∨
     addr &&& 0xffff800000000000 = 0xffff800000000000 then
    Except.ok addr
  else if addr &&& 0xffff800000000000 = 0x0000800000000000 then
    Except.ok (virt_addr_new addr)
  else
    Except.error "Virt addr not valid"

/-! ## Frame allocator (src/shared_lib/src/frame_allocator.rs) -/

inductive MemoryType where
  | Free
  | Reserved
  | InUse
  | Acpi1_3
  | AcpiReclaim
  | Acpi1_4
deriving DecidableEq, Repr

structure MemoryRegion where
  ty : MemoryType
  addr : Nat
  page_count : Nat
deriving DecidableEq, Repr

/-- `FrameAllocator::usable_frames`: filter the `Free` regions in map
order, and list the frame-start addresses `addr`, `addr+4096`, … of each
(`(r.addr..r.addr + 4096*r.page_count).step_by(4096)`). -/
def usable_frames (m : List MemoryRegion) : List Nat :=
  (m.filter (fun r => r.ty == MemoryType.Free)).flatMap
    (fun r => (List.range r.page_count).map (fun i => r.addr + 4096 * i))

structure FrameAllocatorState where
  memory_map : List MemoryRegion
  next : Nat
deriving Repr

/-- `FrameAllocator::allocate_frame`: `usable_frames().nth(next)`, then
advance `next`. -/
def allocate_frame (a : FrameAllocatorState) : Option Nat × FrameAllocatorState :=
  ((usable_frames a.memory_map)[a.next]?, ⟨a.memory_map, a.next + 1⟩)

/-- The allocator state after `k` calls to `allocate_frame`, starting from
cursor 0. -/
def allocState (m : List MemoryRegion) : Nat → FrameAllocatorState
  | 0 => ⟨m, 0⟩
  | k + 1 => (allocate_frame (allocState m k)).2

/-- The result of the `(k+1)`-st call to `allocate_frame`. -/
def allocResult (m : List MemoryRegion) (k : Nat) : Option Nat :=
  (allocate_frame (allocState m k)).1

/-- The regions of a memory map describe pairwise disjoint physical
ranges. -/
def regionsDisjoint (m : List MemoryRegion) : Prop :=
  m.Pairwise (fun r1 r2 =>
    r1.addr + 4096 * r1.page_count ≤ r2.addr ∨ r2.addr + 4096 * r2.page_count ≤ r1.addr)

/-! ## Loader memory-map conversion (src/loader/src/main.rs) -/

inductive UefiMemoryType where
  | RESERVED
  | LOADER_CODE
  | LOADER_DATA
  | BOOT_SERVICES_CODE
  | BOOT_SERVICES_DATA
  | RUNTIME_SERVICES_CODE
  | RUNTIME_SERVICES_DATA
  | CONVENTIONAL
  | UNUSABLE
  | ACPI_RECLAIM
  | ACPI_NON_VOLATILE
  | MMIO
  | MMIO_PORT_SPACE
  | PAL_CODE
  | PERSISTENT_MEMORY
  | custom (v : Nat)
deriving DecidableEq, Repr

/-- `convert_memory_type` from src/loader/src/main.rs; `none` models the
`panic!("Unexpected memory type")` catch-all arm. -/
def convert_memory_type : UefiMemoryType → Option MemoryType
  | UefiMemoryType.MMIO_PORT_SPACE => some MemoryType.Reserved
  | UefiMemoryType.MMIO => some MemoryType.Reserved
  | UefiMemoryType.RESERVED => some MemoryType.Reserved
  | UefiMemoryType.UNUSABLE => some MemoryType.Reserved
  | UefiMemoryType.PERSISTENT_MEMORY => some MemoryType.Free
  | UefiMemoryType.CONVENTIONAL => some MemoryType.Free
  | UefiMemoryType.LOADER_DATA => some MemoryType.Free
  | UefiMemoryType.LOADER_CODE => some MemoryType.Free
  | UefiMemoryType.BOOT_SERVICES_CODE => some MemoryType.Free
  | UefiMemoryType.BOOT_SERVICES_DATA => some MemoryType.Free
  | UefiMemoryType.ACPI_NON_VOLATILE => some MemoryType.Acpi1_3
  | UefiMemoryType.RUNTIME_SERVICES_CODE => some MemoryType.Acpi1_3
  | UefiMemoryType.RUNTIME_SERVICES_DATA => some MemoryType.Acpi1_3
  | UefiMemoryType.ACPI_RECLAIM => some MemoryType.AcpiReclaim
  | UefiMemoryType.PAL_CODE => some MemoryType.Acpi1_4
  | UefiMemoryType.custom _ => none

structure UefiMemoryDescriptor where
  ty : UefiMemoryType
  phys_start : Nat
  page_count : Nat
deriving DecidableEq, Repr

/-- One iteration of the `init_allocator` loop: a descriptor whose
`phys_start` is 0 becomes `Reserved` unconditionally, every other
descriptor goes through `convert_memory_type`. -/
def convert_descriptor (d : UefiMemoryDescriptor) : Option MemoryRegion :=
  if d.phys_start = 0 then
    some ⟨MemoryType.Reserved, d.phys_start, d.page_count⟩
  else
    (convert_memory_type d.ty).map (fun k => ⟨k, d.phys_start, d.page_count⟩)

/-- The whole `init_allocator` conversion of the firmware memory map. -/
def init_allocator_entries (l : List UefiMemoryDescriptor) : Option (List MemoryRegion) :=
  l.mapM convert_descriptor

/-! ## Timer tick arithmetic (src/src/task/timer.rs, src/src/apic.rs) -/

/-- `TIMER_FREQUENCY` from src/src/task/timer.rs. -/
def TIMER_FREQUENCY : Nat := 250

/-- `Sleep::new`: convert milliseconds to ticks, with a minimum of one
tick. -/
def sleep_timer_value (sleep_for_ms : Nat) : Nat :=
  let msec_freq := 1000 / TIMER_FREQUENCY
  if sleep_for_ms < msec_freq then 1 else sleep_for_ms / msec_freq

/-- The local `timer_frequency` variable of `initialize_apic` in
src/src/apic.rs ("x interrupts per sec"). -/
def apic_timer_frequency : Nat := 100

/-- `timer_value = avg_ticks / timer_frequency` programmed into
`APIC_TMRINITCNT` by `initialize_apic`. -/
def apic_timer_value (avg_ticks : Nat) : Nat := avg_ticks / apic_timer_frequency

/-! ## The timer interrupt flag (src/src/task/timer.rs, `raise_timer`) -/

/-- `AtomicBool::compare_exchange(current; expected, new)`: returns the new
cell value, whether the exchange succeeded (`Ok` vs `Err`), and the
previous value carried inside the `Result`. -/
def timer_cas (cur expected newv : Bool) : Bool × Bool × Bool :=
  if cur = expected then (newv, true, cur) else (cur, false, cur)

/-- `raise_timer` acting on the prior value of `TIMER_FLAG` (assumed
initialized): `store(true)`, then `compare_exchange(false, true)`, logging
the missed-tick warning iff that returns `Ok(true)`.  Result: the new flag
value and whether the warning was logged. -/
def raise_timer (_flag : Bool) : Bool × Bool :=
  let f1 := true
  let r := timer_cas f1 false true
  (r.1, r.2.1 && r.2.2)

/-! ## CMOS RTC post-processing (src/src/apic.rs, `read_rtc`) -/

/-- The hour field of `read_rtc` after the BCD adjustment and the
12-hour-clock adjustment, as a function of status register B and the raw
sampled hour byte. -/
def read_rtc_hour (register_b hour : Nat) : Nat :=
  let hour1 :=
    if register_b &&& 0x04 = 0 then
      ((hour &&& 0x0F) + (((hour &&& 0x70) / 16) * 10)) ||| (hour &&& 0x80)
    else hour
  if register_b &&& 0x02 = 0 ∧ hour1 &&& 0x80 = 1 then
    ((hour1 &&& 0x7F) + 12) % 24
  else hour1

/-- The BCD adjustment `read_rtc` applies to the non-hour fields when
status register B bit 2 is clear. -/
def rtc_bcd_field (register_b v : Nat) : Nat :=
  if register_b &&& 0x04 = 0 then (v &&& 0x0F) + (v / 16) * 10 else v

/-! ## Loader kernel-image mapping (src/loader/src/main.rs, `map_kernel`)

`map_kernel` calls `map_address`, `remap_address`, `align_down` and
`align_down_u64` from the `shared_lib::page_table` module, which is not
present under src/; those four operations are modelled from the spec
(§4.C) at page→frame granularity, while the `map_kernel` control flow
itself is translated from src/loader/src/main.rs. -/

/-- Modelled from the spec: `align_down` of the missing
`shared_lib::page_table` module rounds an address down to its 4 KiB page
boundary (spec §4.A/§4.C use it on both virtual and physical addresses;
`align_down_u64` is the same function on raw `u64`s). -/
def align_down (v : Nat) : Nat := v - v % 4096

/-- The frame an L1 walk yields for a given page in the loader's page
tables, viewed as the page→frame association built so far. -/
def pt_lookup (pt : List (Nat × Nat)) (page : Nat) : Option Nat :=
  (pt.find? (fun e => e.1 == page)).map Prod.snd

/-- Modelled from the spec: `map(L4, V, P)` of the missing
`shared_lib::page_table` module — after it, walking at `V` yields a
present L1 entry with frame `P`; it fails when the L1 entry is already
present (spec §4.C).  Viewed at page→frame granularity. -/
def pt_map_page (pt : List (Nat × Nat)) (page frame : Nat) : Option (List (Nat × Nat)) :=
  match pt_lookup pt page with
  | some _ => none
  | none => some (pt ++ [(page, frame)])

/-- Modelled from the spec: `remap(L4, V, P')` of the missing
`shared_lib::page_table` module — precondition: the L1 entry for `V` is
present; overwrites the frame field (spec §4.C). -/
def pt_remap_page (pt : List (Nat × Nat)) (page frame : Nat) : Option (List (Nat × Nat)) :=
  match pt_lookup pt page with
  | none => none
  | some _ => some (pt.map (fun e => if e.1 = page then (page, frame) else e))

/-- The loader state threaded through `map_kernel`: the page→frame map,
the `mapped_frames` record array (in push order), the frames the
allocator will hand out next, and the contents of physical memory. -/
structure KState where
  pt : List (Nat × Nat)
  recorded : List (Nat × Nat)
  free : List Nat
  mem : Nat → Nat

/-- `core::ptr::copy(src, dst, n)` on the physical-memory function. -/
def copy_bytes (mem : Nat → Nat) (src dst n : Nat) : Nat → Nat :=
  fun a => if dst ≤ a ∧ a < dst + n then mem (src + (a - dst)) else mem a

/-- `core::ptr::write_bytes(dst, 0, n)` on the physical-memory function. -/
def zero_bytes (mem : Nat → Nat) (dst n : Nat) : Nat → Nat :=
  fun a => if dst ≤ a ∧ a < dst + n then 0 else mem a

/-- The image-mapping loop of `map_kernel`: `n` iterations mapping
`va + i·4096 → pa + i·4096` and recording each pair in `mapped_frames`. -/
def map_image (st : KState) (va pa n : Nat) : Option KState :=
  (List.range n).foldlM
    (fun st i =>
      (pt_map_page st.pt (va + i * 4096) (pa + i * 4096)).map
        (fun pt2 =>
          { st with pt := pt2,
                    recorded := st.recorded ++ [(va + i * 4096, pa + i * 4096)] }))
    st

/-- `map_kernel` from src/loader/src/main.rs for a single LOAD program
header `{offset, file_size, mem_size, virt_addr}` of a kernel image loaded
at physical address `kernel`.  Returns `none` where the Rust code panics
(map/remap failure, allocator exhaustion). -/
def map_kernel_header (st : KState) (kernel offset file_size mem_size virt_addr : Nat) :
    Option KState :=
  let phys_start := kernel + offset
  let phys_end := phys_start + file_size
  let va := align_down virt_addr
  let pa := align_down phys_start
  (if file_size ≠ 0 then
     map_image st va pa (1 + (file_size - 1 + virt_addr - va) / 4096)
   else
     map_image st va pa 1) >>= fun st1 =>
  if file_size < mem_size then
    let zero_start := virt_addr + file_size
    let tail := zero_start &&& 0xfff
    (if tail ≠ 0 then
       match st1.free with
       | [] => none
       | f :: rest =>
         let frame_to_copy := align_down phys_end
         (st1.recorded.foldlM
            (fun pt e => if e.2 = frame_to_copy then pt_remap_page pt e.1 f else some pt)
            st1.pt).map
           (fun pt2 =>
             ({ pt := pt2, recorded := st1.recorded, free := rest,
                mem := zero_bytes (copy_bytes st1.mem frame_to_copy f tail)
                         (f + tail) (4096 - tail) },
              tail))
     else some (st1, 4096)) >>= fun p =>
    (if 4096 - p.2 < mem_size - file_size then
       let zsa := zero_start + (4096 - p.2)
       let bta := mem_size - file_size - (4096 - p.2)
       (List.range (1 + bta / 4096)).foldlM
         (fun st i =>
           match st.free with
           | [] => none
           | f :: rest =>
             (pt_map_page st.pt (zsa + i * 4096) f).map
               (fun pt2 =>
                 { pt := pt2, recorded := st.recorded, free := rest,
                   mem := zero_bytes st.mem f 4096 }))
         p.1
     else some p.1)
  else some st1

/-- The byte a virtual address reads through the loader's page→frame map. -/
def read_virt (st : KState) (v : Nat) : Option Nat :=
  (pt_lookup st.pt (align_down v)).map (fun fr => st.mem (fr + (v - align_down v)))

/-! ## Helper views and concrete witness inputs -/

/-- The L3/L2/L1 table addresses `get_physical_address` visits for `virt`
(read off the entries regardless of presence). -/
def walk3 (s : PTState) (l4 virt : Nat) : Nat × Nat × Nat :=
  let a3 := entryAddr (s.mem l4 (get_p4_index virt))
  let a2 := entryAddr (s.mem a3 (get_p3_index virt))
  let a1 := entryAddr (s.mem a2 (get_p2_index virt))
  (a3, a2, a1)

/-- A machine with an empty L4 table at 0x1000 and three free frames. -/
def emptyPT : PTState := ⟨fun _ _ => 0, [0x2000, 0x3000, 0x4000]⟩

/-- Page tables with an existing mapping for `0xffff8000001a3000`
(L4 at 0x1000, walk 0x2000 → 0x3000 → 0x4000, leaf frame 0x5000). -/
def c5mem : Nat → Nat → Nat := fun a j =>
  if a = 0x1000 ∧ j = 256 then 0x2003
  else if a = 0x2000 ∧ j = 0 then 0x3003
  else if a = 0x3000 ∧ j = 0 then 0x4003
  else if a = 0x4000 ∧ j = 419 then 0x5003
  else 0

/-- Machine state for the already-mapped scenario. -/
def c5s0 : PTState := ⟨c5mem, [0x6000]⟩

/-- Loader state before `map_kernel` in the ELF scenario: nothing mapped,
one spare frame at 0x9000, arbitrary memory contents. -/
def c2st0 : KState := ⟨[], [], [0x9000], fun _ => 0⟩

/-- `map_kernel` on the scenario LOAD header `{file_size = 0x1003,
mem_size = 0x2000, virt_addr = 0x1_0000_0000}` of a kernel image at
physical 0x400000, starting from an empty page map, one spare frame at
0x9000 and memory contents `m0`. -/
def kernel_scenario (m0 : Nat → Nat) : Option KState :=
  map_kernel_header ⟨[], [], [0x9000], m0⟩ 0x400000 0 0x1003 0x2000 0x100000000

/-- Memory map used to witness the frame-allocator claims. -/
def c3map : List MemoryRegion :=
  [⟨MemoryType.Free, 0x1000, 2⟩, ⟨MemoryType.Reserved, 0x3000, 1⟩,
   ⟨MemoryType.Free, 0x5000, 1⟩]

/-- The firmware memory map of the conversion scenario. -/
def c6map : List UefiMemoryDescriptor :=
  [⟨UefiMemoryType.CONVENTIONAL, 0, 1⟩, ⟨UefiMemoryType.CONVENTIONAL, 0x1000, 10⟩,
   ⟨UefiMemoryType.RESERVED, 0xB000, 2⟩]

/-! ## Bit-level helper lemmas -/

lemma testBit_page_mask (i : Nat) :
    (0x000ffffffffff000 : Nat).testBit i = (decide (12 ≤ i) && decide (i < 52)) := by
  have h : (0x000ffffffffff000 : Nat) = (2 ^ 40 - 1) <<< 12 := by
    norm_num [Nat.shiftLeft_eq]
  rw [h, Nat.testBit_shiftLeft, Nat.testBit_two_pow_sub_one]
  by_cases h12 : 12 ≤ i
  · rw [decide_eq_true h12, Bool.true_and, Bool.true_and]
    exact decide_eq_decide.mpr (by omega)
  · rw [decide_eq_false h12, Bool.false_and, Bool.false_and]

lemma and_or_small_mask (a b : Nat) (hb : b < 4096) (ha : a % 4096 = 0)
    (ha52 : a < 2 ^ 52) : (a ||| b) &&& 0x000ffffffffff000 = a := by
  apply Nat.eq_of_testBit_eq
  intro i
  rw [Nat.testBit_and, Nat.testBit_or, testBit_page_mask]
  by_cases h1 : i < 12
  · have hmod : a % 2 ^ 12 = 0 := by norm_num at ha ⊢; exact ha
    have hai : a.testBit i = false := by
      have hmp : (a % 2 ^ 12).testBit i = (decide (i < 12) && a.testBit i) :=
        Nat.testBit_mod_two_pow a 12 i
      rw [hmod, decide_eq_true h1, Bool.true_and] at hmp
      simp only [Nat.zero_testBit] at hmp
      exact hmp.symm
    have h12 : ¬(12 ≤ i) := by omega
    rw [decide_eq_false h12, Bool.false_and, Bool.and_false, hai]
  · by_cases h2 : i < 52
    · have hbi : b.testBit i = false := by
        apply Nat.testBit_lt_two_pow
        calc b < 4096 := hb
        _ = 2 ^ 12 := by norm_num
        _ ≤ 2 ^ i := Nat.pow_le_pow_right (by norm_num) (by omega)
      have h12 : 12 ≤ i := by omega
      rw [decide_eq_true h12, decide_eq_true h2, hbi]
      simp
    · have hai : a.testBit i = false := by
        apply Nat.testBit_lt_two_pow
        exact lt_of_lt_of_le ha52 (Nat.pow_le_pow_right (by norm_num) (by omega))
      have hbi : b.testBit i = false := by
        apply Nat.testBit_lt_two_pow
        calc b < 4096 := hb
        _ = 2 ^ 12 := by norm_num
        _ ≤ 2 ^ i := Nat.pow_le_pow_right (by norm_num) (by omega)
      rw [decide_eq_false h2, hai, hbi]
      simp

lemma entryPresent_or3 (a : Nat) : entryPresent (a ||| 3) = true := by
  have h0 : (a ||| 3).testBit 0 = true := by
    rw [Nat.testBit_or]; simp
  rw [Nat.testBit_zero] at h0
  have h1 : (a ||| 3) % 2 = 1 := of_decide_eq_true h0
  unfold entryPresent
  rw [Nat.and_one_is_mod, h1]
  rfl

lemma entryPresent_zero : entryPresent 0 = false := by decide

lemma entryAddr_or3 (a : Nat) (ha : a % 4096 = 0) (h52 : a < 2 ^ 52) :
    entryAddr (a ||| 3) = a := by
  unfold entryAddr
  exact and_or_small_mask a 3 (by norm_num) ha h52

lemma land_shiftLeft_eq (x m k : Nat) : x &&& (m <<< k) = ((x >>> k) &&& m) <<< k := by
  apply Nat.eq_of_testBit_eq
  intro i
  rw [Nat.testBit_and, Nat.testBit_shiftLeft, Nat.testBit_shiftLeft, Nat.testBit_and,
    Nat.testBit_shiftRight]
  by_cases h : k ≤ i
  · have : k + (i - k) = i := by omega
    rw [this]
    cases x.testBit i <;> cases m.testBit (i - k) <;> simp [h]
  · simp [h]

/-! ## Theorems -/

/-- Claim C4 (corrected), counterexample: `0xffff000000000000` has bits
48..64 all 1 (so the claim as stated says `new_checked` succeeds on it),
yet `VirtAddr::new_checked` rejects it, because its bit 47 is 0 and the
matched mask covers bits 47..63. -/
theorem virt_addr_new_checked_allones_rejected :
    (0xffff000000000000 : Nat) >>> 48 = 0xffff ∧
    (virt_addr_new_checked 0xffff000000000000).isOk = false := by
  decide

/-- Claim C4 (amended): for every `u64` input, `VirtAddr::new_checked`
succeeds iff bits 48..64 are all 0, or bits 48..64 are all 1 and bit 47 is
also 1 (i.e. they are the sign extension of a set bit 47); moreover
`new_checked 0x0000800000000000 = Ok 0xffff800000000000` and
`new_checked 0x1020000000000002` is the bad-virtual-address error. -/
theorem virt_addr_new_checked_canonical (x : Nat) (hx : x < 2 ^ 64) :
    ((virt_addr_new_checked x).isOk = true ↔
      (x >>> 48 = 0 ∨ (x.testBit 47 = true ∧ x >>> 48 = 0xffff))) ∧
    virt_addr_new_checked 0x0000800000000000 = Except.ok 0xffff800000000000 ∧
    virt_addr_new_checked 0x1020000000000002 = Except.error "Virt addr not valid" := by
  refine ⟨?_, by rfl, by rfl⟩
  have hq : x >>> 47 < 131072 := by
    rw [Nat.shiftRight_eq_div_pow]
    have h47 : (2 : Nat) ^ 47 = 140737488355328 := by norm_num
    have h64 : (2 : Nat) ^ 64 = 18446744073709551616 := by norm_num
    rw [h47]
    rw [h64] at hx
    omega
  have hmask : (0xffff800000000000 : Nat) = (2 ^ 17 - 1) <<< 47 := by
    norm_num [Nat.shiftLeft_eq]
  have h17 : x >>> 47 < 2 ^ 17 := by
    have he : (2 : Nat) ^ 17 = 131072 := by norm_num
    omega
  have hx47 : x &&& 0xffff800000000000 = (x >>> 47) * 140737488355328 := by
    rw [hmask, land_shiftLeft_eq, Nat.and_pow_two_sub_one_eq_mod,
      Nat.mod_eq_of_lt h17, Nat.shiftLeft_eq]
  have h48 : x >>> 48 = (x >>> 47) / 2 := by
    rw [show (48 : Nat) = 47 + 1 from rfl, Nat.shiftRight_succ]
  have hb : x.testBit 47 = decide (x >>> 47 % 2 = 1) := by
    rw [← Nat.testBit_zero (x >>> 47), Nat.testBit_shiftRight]
  unfold virt_addr_new_checked
  rw [hx47, hb, h48]
  set q := x >>> 47 with hqdef
  by_cases c1 : q * 140737488355328 = 0 ∨ q * 140737488355328 = 0xffff800000000000
  · rw [if_pos c1]
    simp only [Except.isOk, Except.toBool, true_iff]
    rcases c1 with c1 | c1
    · left; omega
    · right
      constructor
      · exact decide_eq_true (by omega)
      · omega
  · rw [if_neg c1]
    by_cases c2 : q * 140737488355328 = 0x0000800000000000
    · rw [if_pos c2]
      simp only [Except.isOk, Except.toBool, true_iff]
      left
      omega
    · rw [if_neg c2]
      simp only [Except.isOk, Except.toBool, Bool.false_eq_true, false_iff]
      rintro (h' | ⟨hbit, h'⟩)
      · omega
      · have hq2 : q % 2 = 1 := of_decide_eq_true hbit
        omega

/-- Witness for C4 at `x = 0x0000800000000000`. -/
theorem virt_addr_new_checked_canonical_witness :
    (0x0000800000000000 : Nat) < 2 ^ 64 ∧
    (((virt_addr_new_checked 0x0000800000000000).isOk = true ↔
        ((0x0000800000000000 : Nat) >>> 48 = 0 ∨
          ((0x0000800000000000 : Nat).testBit 47 = true ∧
            (0x0000800000000000 : Nat) >>> 48 = 0xffff))) ∧
      virt_addr_new_checked 0x0000800000000000 = Except.ok 0xffff800000000000 ∧
      virt_addr_new_checked 0x1020000000000002 = Except.error "Virt addr not valid") :=
  ⟨by norm_num, virt_addr_new_checked_canonical 0x0000800000000000 (by norm_num)⟩

/-- Claim C6: the loader's memory-map conversion sends
{MMIO, MMIO_PORT_SPACE, RESERVED, UNUSABLE} to Reserved and
{PERSISTENT_MEMORY, CONVENTIONAL, LOADER_CODE, LOADER_DATA,
BOOT_SERVICES_CODE, BOOT_SERVICES_DATA} to Free, sends the remaining
supported kinds to their designated core kinds (the three runtime/ACPI-NVS
kinds to Acpi1_3, ACPI_RECLAIM to AcpiReclaim, PAL_CODE to Acpi1_4),
always marks a region starting at physical frame 0 Reserved, and converts
the scenario map `[{Conventional,0,1},{Conventional,0x1000,10},
{Reserved,0xB000,2}]` to a map whose frame 0 is Reserved and whose free
frames are exactly the ten frames 0x1000..0xA000. -/
theorem convert_memory_map_spec (d : UefiMemoryDescriptor) :
    (convert_memory_type UefiMemoryType.MMIO = some MemoryType.Reserved ∧
     convert_memory_type UefiMemoryType.MMIO_PORT_SPACE = some MemoryType.Reserved ∧
     convert_memory_type UefiMemoryType.RESERVED = some MemoryType.Reserved ∧
     convert_memory_type UefiMemoryType.UNUSABLE = some MemoryType.Reserved) ∧
    (convert_memory_type UefiMemoryType.PERSISTENT_MEMORY = some MemoryType.Free ∧
     convert_memory_type UefiMemoryType.CONVENTIONAL = some MemoryType.Free ∧
     convert_memory_type UefiMemoryType.LOADER_CODE = some MemoryType.Free ∧
     convert_memory_type UefiMemoryType.LOADER_DATA = some MemoryType.Free ∧
     convert_memory_type UefiMemoryType.BOOT_SERVICES_CODE = some MemoryType.Free ∧
     convert_memory_type UefiMemoryType.BOOT_SERVICES_DATA = some MemoryType.Free) ∧
    (convert_memory_type UefiMemoryType.ACPI_NON_VOLATILE = some MemoryType.Acpi1_3 ∧
     convert_memory_type UefiMemoryType.RUNTIME_SERVICES_CODE = some MemoryType.Acpi1_3 ∧
     convert_memory_type UefiMemoryType.RUNTIME_SERVICES_DATA = some MemoryType.Acpi1_3 ∧
     convert_memory_type UefiMemoryType.ACPI_RECLAIM = some MemoryType.AcpiReclaim ∧
     convert_memory_type UefiMemoryType.PAL_CODE = some MemoryType.Acpi1_4) ∧
    (d.phys_start = 0 →
      convert_descriptor d = some ⟨MemoryType.Reserved, d.phys_start, d.page_count⟩) ∧
    init_allocator_entries c6map =
      some [⟨MemoryType.Reserved, 0, 1⟩, ⟨MemoryType.Free, 0x1000, 10⟩,
            ⟨MemoryType.Reserved, 0xB000, 2⟩] ∧
    (init_allocator_entries c6map).map usable_frames =
      some [0x1000, 0x2000, 0x3000, 0x4000, 0x5000, 0x6000, 0x7000, 0x8000,
            0x9000, 0xA000] := by
  refine ⟨by decide, by decide, by decide, ?_, by decide, by decide⟩
  intro h0
  unfold convert_descriptor
  rw [if_pos h0]

/-- Witness for C6 at a concrete descriptor. -/
theorem convert_memory_map_spec_witness :
    convert_descriptor ⟨UefiMemoryType.MMIO, 0, 7⟩ =
      some ⟨MemoryType.Reserved, 0, 7⟩ :=
  ((convert_memory_map_spec ⟨UefiMemoryType.MMIO, 0, 7⟩).2.2.2.1) rfl

/-- Claim C7 (code bug): `Sleep::new` converts milliseconds to ticks with
`TIMER_FREQUENCY = 250` (so `sleep_for(1000)` registers 250 ticks), while
`initialize_apic` programs the periodic LAPIC timer with its own local
`timer_frequency = 100`; the two frequencies disagree, so the tick unit
used by `sleep_for` does not match the LAPIC programming and
`sleep_for(1000)` does not register `1000 / (1000 / 100) = 100` ticks. -/
theorem timer_frequency_mismatch :
    TIMER_FREQUENCY = 250 ∧
    apic_timer_frequency = 100 ∧
    sleep_timer_value 1000 = 250 ∧
    apic_timer_value 1000000 = 10000 ∧
    TIMER_FREQUENCY ≠ apic_timer_frequency ∧
    sleep_timer_value 1000 ≠ 1000 / (1000 / apic_timer_frequency) := by
  decide

/-- Claim C8 (code bug): `raise_timer` stores `true` into the flag before
the `compare_exchange(false, true)`, so the compare-exchange always sees
`true`, always fails with `Err(true)`, and the missed-tick warning branch
(`Ok(true)`) is unreachable: no warning is logged for either prior flag
value, although the flag itself is always left set. -/
theorem raise_timer_never_warns :
    (raise_timer true).2 = false ∧
    (raise_timer false).2 = false ∧
    (raise_timer true).1 = true ∧
    (raise_timer false).1 = true := by
  decide

/-- Claim C9 (code bug): the 12-hour-to-24-hour conversion in `read_rtc`
is guarded by `hour & 0x80 == 1`, which is never true (the conjunct is 0
or 0x80), so for status register B = 0x04 (binary mode, 12-hour clock) and
sampled hour 0x85 (PM marker set) the code returns 0x85 unchanged instead
of `((0x85 & 0x7F) + 12) % 24 = 17`; in general the hour is returned
exactly as left by the BCD adjustment, and the BCD adjustment itself is
applied iff status register B bit 2 is clear. -/
theorem read_rtc_hour_no_12h_conversion :
    read_rtc_hour 0x04 0x85 = 0x85 ∧
    ((0x85 &&& 0x7F) + 12) % 24 = 17 ∧
    read_rtc_hour 0x04 0x85 ≠ 17 ∧
    (∀ b h : Nat,
      read_rtc_hour b h =
        (if b &&& 0x04 = 0 then
          ((h &&& 0x0F) + (((h &&& 0x70) / 16) * 10)) ||| (h &&& 0x80)
         else h)) ∧
    rtc_bcd_field 0x00 0x23 = 23 ∧
    rtc_bcd_field 0x04 0x23 = 0x23 := by
  refine ⟨by decide, by decide, by decide, ?_, by decide, by decide⟩
  intro b h
  simp only [read_rtc_hour]
  have hne : ∀ y : Nat, ¬(b &&& 0x02 = 0 ∧ y &&& 0x80 = 1) := by
    rintro y ⟨_, h128⟩
    have h0 : (y &&& 0x80).testBit 0 = false := by
      rw [Nat.testBit_and]
      simp
    rw [h128] at h0
    simp at h0
  rw [if_neg (hne _)]

/-! ## Frame allocator lemmas (claim C3) -/

lemma allocState_eq (m : List MemoryRegion) (k : Nat) : allocState m k = ⟨m, k⟩ := by
  induction k with
  | zero => rfl
  | succ n ih => simp [allocState, allocate_frame, ih]

lemma allocResult_eq (m : List MemoryRegion) (k : Nat) :
    allocResult m k = (usable_frames m)[k]? := by
  rw [allocResult, allocState_eq]
  rfl

lemma usable_frames_nodup (m : List MemoryRegion) (h : regionsDisjoint m) :
    (usable_frames m).Nodup := by
  unfold usable_frames
  rw [List.nodup_flatMap]
  constructor
  · intro r _
    exact List.Nodup.map (fun a b hab => by omega) (List.nodup_range _)
  · have hp := List.Pairwise.filter (fun r => r.ty == MemoryType.Free) h
    refine hp.imp ?_
    intro r1 r2 h12
    intro x hx1 hx2
    simp only [Function.onFun, List.mem_map, List.mem_range] at hx1 hx2
    obtain ⟨i, hi, rfl⟩ := hx1
    obtain ⟨j, hj, hji⟩ := hx2
    omega

lemma mem_usable_frames (m : List MemoryRegion) (x : Nat) :
    x ∈ usable_frames m ↔
      ∃ r ∈ m, r.ty = MemoryType.Free ∧ ∃ i < r.page_count, x = r.addr + 4096 * i := by
  unfold usable_frames
  simp only [List.mem_flatMap, List.mem_filter, List.mem_map, List.mem_range, beq_iff_eq]
  constructor
  · rintro ⟨r, ⟨hr, hty⟩, i, hi, rfl⟩
    exact ⟨r, hr, hty, i, hi, rfl⟩
  · rintro ⟨r, hr, hty, i, hi, rfl⟩
    exact ⟨r, ⟨hr, hty⟩, i, hi, rfl⟩

/-- Claim C3: the sequence of frames returned by successive
`allocate_frame` calls is exactly the list of 4 KiB frame-start addresses
of the `Free` regions in memory-map order; for a map with disjoint regions
two successive successful calls return distinct addresses; the frames
returned over the allocator's lifetime are exactly the union of the
`Free` regions at page granularity; and a call returns `None` exactly when
the cursor has moved past the last free frame. -/
theorem allocate_frame_spec (m : List MemoryRegion) (k : Nat) (x a b : Nat) :
    allocResult m k = (usable_frames m)[k]? ∧
    (regionsDisjoint m → allocResult m k = some a →
      allocResult m (k + 1) = some b → a ≠ b) ∧
    ((∃ j, allocResult m j = some x) ↔
      ∃ r ∈ m, r.ty = MemoryType.Free ∧ ∃ i < r.page_count, x = r.addr + 4096 * i) ∧
    (allocResult m k = none ↔ (usable_frames m).length ≤ k) := by
  refine ⟨allocResult_eq m k, ?_, ?_, ?_⟩
  · intro hdisj ha hb heq
    rw [allocResult_eq] at ha hb
    subst heq
    have hlen : k < (usable_frames m).length := by
      by_contra hle
      rw [List.getElem?_eq_none (by omega)] at ha
      exact Option.noConfusion ha
    have := List.getElem?_inj hlen (usable_frames_nodup m hdisj) (ha.trans hb.symm)
    omega
  · rw [← mem_usable_frames]
    constructor
    · rintro ⟨j, hj⟩
      rw [allocResult_eq] at hj
      exact List.mem_iff_getElem?.mpr ⟨j, hj⟩
    · intro hx
      obtain ⟨j, hj⟩ := List.mem_iff_getElem?.mp hx
      exact ⟨j, (allocResult_eq m j).trans hj⟩
  · rw [allocResult_eq]
    exact List.getElem?_eq_none_iff

/-- Witness for C3 on a concrete three-region map. -/
theorem allocate_frame_spec_witness :
    (allocResult c3map 0 = (usable_frames c3map)[0]? ∧
      (regionsDisjoint c3map → allocResult c3map 0 = some 0x1000 →
        allocResult c3map 1 = some 0x2000 → (0x1000 : Nat) ≠ 0x2000) ∧
      ((∃ j, allocResult c3map j = some 0x5000) ↔
        ∃ r ∈ c3map, r.ty = MemoryType.Free ∧
          ∃ i < r.page_count, (0x5000 : Nat) = r.addr + 4096 * i) ∧
      (allocResult c3map 0 = none ↔ (usable_frames c3map).length ≤ 0)) ∧
    regionsDisjoint c3map ∧
    allocResult c3map 0 = some 0x1000 ∧ allocResult c3map 1 = some 0x2000 ∧
    allocResult c3map 2 = some 0x5000 ∧ allocResult c3map 3 = none := by
  refine ⟨allocate_frame_spec c3map 0 0x5000 0x1000 0x2000, ?_, ?_, ?_, ?_, ?_⟩
  · unfold regionsDisjoint
    decide
  all_goals rfl

/-! ## Page-table walk lemmas (claims C1, C5, C10) -/

lemma cnt_cases {s s' : PTState} {t i t' : Nat}
    (h : create_next_table s t i = (s', Except.ok t')) :
    (entryPresent (s.mem t i) = true ∧ s' = s ∧ t' = entryAddr (s.mem t i)) ∨
    (entryPresent (s.mem t i) = false ∧ ∃ rest, s.freeFrames = t' :: rest ∧
      s' = ⟨writeEntry (clearTable s.mem t') t i (t' ||| 3), rest⟩) := by
  simp only [create_next_table] at h
  split at h
  · rename_i hp
    simp only [Prod.mk.injEq, Except.ok.injEq] at h
    exact Or.inl ⟨hp, h.1.symm, h.2.symm⟩
  · rename_i hp
    rcases hsf : s.freeFrames with _ | ⟨f, rest⟩ <;> rw [hsf] at h
    · simp at h
    · simp only [Prod.mk.injEq, Except.ok.injEq] at h
      obtain ⟨hs, hf⟩ := h
      subst hf
      exact Or.inr ⟨by simpa using hp, rest, rfl, hs.symm⟩

lemma cnt_slot {s s' : PTState} {t i t' : Nat}
    (h : create_next_table s t i = (s', Except.ok t'))
    (hfree : ∀ f ∈ s.freeFrames, f % 4096 = 0 ∧ f < 2 ^ 52) :
    entryPresent (s'.mem t i) = true ∧ entryAddr (s'.mem t i) = t' := by
  rcases cnt_cases h with ⟨hp, rfl, rfl⟩ | ⟨hp, rest, hsf, rfl⟩
  · exact ⟨hp, rfl⟩
  · have hmem : t' ∈ s.freeFrames := by rw [hsf]; exact List.mem_cons_self t' rest
    have hslot : writeEntry (clearTable s.mem t') t i (t' ||| 3) t i = t' ||| 3 := by
      unfold writeEntry
      rw [if_pos ⟨rfl, rfl⟩]
    refine ⟨?_, ?_⟩
    · show entryPresent (writeEntry (clearTable s.mem t') t i (t' ||| 3) t i) = true
      rw [hslot]
      exact entryPresent_or3 t'
    · show entryAddr (writeEntry (clearTable s.mem t') t i (t' ||| 3) t i) = t'
      rw [hslot]
      exact entryAddr_or3 t' (hfree t' hmem).1 (hfree t' hmem).2

lemma cnt_preserve {s s' : PTState} {t i t' : Nat}
    (h : create_next_table s t i = (s', Except.ok t'))
    (a j : Nat) (hat : a ≠ t) (hat' : a ≠ t') : s'.mem a j = s.mem a j := by
  rcases cnt_cases h with ⟨-, rfl, -⟩ | ⟨-, rest, -, rfl⟩
  · rfl
  · show writeEntry (clearTable s.mem t') t i (t' ||| 3) a j = s.mem a j
    unfold writeEntry clearTable
    rw [if_neg (fun hc => hat hc.1), if_neg hat']

lemma cnt_preserve_present {s s' : PTState} {t i t' : Nat}
    (h : create_next_table s t i = (s', Except.ok t'))
    (a j : Nat) (hp : entryPresent (s.mem a j) = true)
    (ha : ∀ f ∈ s.freeFrames, a ≠ f) : s'.mem a j = s.mem a j := by
  rcases cnt_cases h with ⟨-, rfl, -⟩ | ⟨hnp, rest, hsf, rfl⟩
  · rfl
  · show writeEntry (clearTable s.mem t') t i (t' ||| 3) a j = s.mem a j
    have haf : a ≠ t' := ha t' (by rw [hsf]; exact List.mem_cons_self t' rest)
    unfold writeEntry clearTable
    by_cases hc : a = t ∧ j = i
    · exfalso
      rw [hc.1, hc.2] at hp
      rw [hp] at hnp
      exact Bool.noConfusion hnp
    · rw [if_neg hc, if_neg haf]

lemma cnt_frames {s s' : PTState} {t i t' : Nat}
    (h : create_next_table s t i = (s', Except.ok t')) :
    ∀ f ∈ s'.freeFrames, f ∈ s.freeFrames := by
  rcases cnt_cases h with ⟨-, rfl, -⟩ | ⟨-, rest, hsf, rfl⟩
  · exact fun f hf => hf
  · intro g hg
    rw [hsf]
    exact List.mem_cons_of_mem _ hg

lemma gpa_intro (s : PTState) (l4 virt a3 a2 a1 f : Nat)
    (k4 : entryPresent (s.mem l4 (get_p4_index virt)) = true)
    (e4 : entryAddr (s.mem l4 (get_p4_index virt)) = a3)
    (k3 : entryPresent (s.mem a3 (get_p3_index virt)) = true)
    (e3 : entryAddr (s.mem a3 (get_p3_index virt)) = a2)
    (k2 : entryPresent (s.mem a2 (get_p2_index virt)) = true)
    (e2 : entryAddr (s.mem a2 (get_p2_index virt)) = a1)
    (k1 : entryPresent (s.mem a1 (get_p1_index virt)) = true)
    (e1 : entryAddr (s.mem a1 (get_p1_index virt)) = f) :
    get_physical_address s l4 virt = some f := by
  unfold get_physical_address
  simp only [e4, k4, if_true]
  simp only [e3, k3, if_true]
  simp only [e2, k2, if_true]
  simp only [e1, k1, if_true]

lemma gpa_elim {s : PTState} {l4 virt f : Nat}
    (h : get_physical_address s l4 virt = some f) :
    entryPresent (s.mem l4 (get_p4_index virt)) = true ∧
    entryPresent (s.mem (entryAddr (s.mem l4 (get_p4_index virt)))
      (get_p3_index virt)) = true ∧
    entryPresent (s.mem (entryAddr (s.mem (entryAddr (s.mem l4 (get_p4_index virt)))
      (get_p3_index virt))) (get_p2_index virt)) = true ∧
    entryPresent (s.mem (entryAddr (s.mem (entryAddr (s.mem (entryAddr
      (s.mem l4 (get_p4_index virt))) (get_p3_index virt))) (get_p2_index virt)))
      (get_p1_index virt)) = true ∧
    entryAddr (s.mem (entryAddr (s.mem (entryAddr (s.mem (entryAddr
      (s.mem l4 (get_p4_index virt))) (get_p3_index virt))) (get_p2_index virt)))
      (get_p1_index virt)) = f := by
  simp only [get_physical_address] at h
  split at h
  · split at h
    · split at h
      · split at h
        · rename_i k4 k3 k2 k1
          exact ⟨k4, k3, k2, k1, Option.some_inj.mp h⟩
        · exact Option.noConfusion h
      · exact Option.noConfusion h
    · exact Option.noConfusion h
  · exact Option.noConfusion h

lemma impl_ok (s s1 s2 s3 : PTState) (l4 virt phys l3t l2t l1t : Nat)
    (h1 : create_next_table s l4 (get_p4_index virt) = (s1, Except.ok l3t))
    (h2 : create_next_table s1 l3t (get_p3_index virt) = (s2, Except.ok l2t))
    (h3 : create_next_table s2 l2t (get_p2_index virt) = (s3, Except.ok l1t))
    (h4 : entryPresent (s3.mem l1t (get_p1_index virt)) = false) :
    map_address_impl s l4 virt phys =
      ({ mem := writeEntry s3.mem l1t (get_p1_index virt) (phys ||| 3),
         freeFrames := s3.freeFrames }, none) := by
  simp only [map_address_impl, h1, h2, h3, h4, Bool.false_eq_true, if_false]

lemma impl_roundtrip (s s1 s2 s3 : PTState) (l4 virt phys l3t l2t l1t : Nat)
    (h1 : create_next_table s l4 (get_p4_index virt) = (s1, Except.ok l3t))
    (h2 : create_next_table s1 l3t (get_p3_index virt) = (s2, Except.ok l2t))
    (h3 : create_next_table s2 l2t (get_p2_index virt) = (s3, Except.ok l1t))
    (h4 : entryPresent (s3.mem l1t (get_p1_index virt)) = false)
    (hd : l4 ≠ l3t ∧ l4 ≠ l2t ∧ l4 ≠ l1t ∧ l3t ≠ l2t ∧ l3t ≠ l1t ∧ l2t ≠ l1t)
    (hfree : ∀ f ∈ s.freeFrames, f % 4096 = 0 ∧ f < 2 ^ 52)
    (hP : phys % 4096 = 0 ∧ phys < 2 ^ 52) :
    (map_address_impl s l4 virt phys).2 = none ∧
    get_physical_address (map_address_impl s l4 virt phys).1 l4 virt = some phys ∧
    (map_address_impl s l4 virt phys).1.mem l1t (get_p1_index virt) = phys ||| 3 ∧
    entryPresent ((map_address_impl s l4 virt phys).1.mem l4 (get_p4_index virt)) = true ∧
    entryAddr ((map_address_impl s l4 virt phys).1.mem l4 (get_p4_index virt)) = l3t ∧
    entryPresent ((map_address_impl s l4 virt phys).1.mem l3t (get_p3_index virt)) = true ∧
    entryAddr ((map_address_impl s l4 virt phys).1.mem l3t (get_p3_index virt)) = l2t ∧
    entryPresent ((map_address_impl s l4 virt phys).1.mem l2t (get_p2_index virt)) = true ∧
    entryAddr ((map_address_impl s l4 virt phys).1.mem l2t (get_p2_index virt)) = l1t := by
  obtain ⟨hd1, hd2, hd3, hd4, hd5, hd6⟩ := hd
  have himpl := impl_ok s s1 s2 s3 l4 virt phys l3t l2t l1t h1 h2 h3 h4
  rw [himpl]
  have hfree1 : ∀ f ∈ s1.freeFrames, f % 4096 = 0 ∧ f < 2 ^ 52 :=
    fun f hf => hfree f (cnt_frames h1 f hf)
  have hfree2 : ∀ f ∈ s2.freeFrames, f % 4096 = 0 ∧ f < 2 ^ 52 :=
    fun f hf => hfree1 f (cnt_frames h2 f hf)
  have c1 := cnt_slot h1 hfree
  have c2 := cnt_slot h2 hfree1
  have c3 := cnt_slot h3 hfree2
  have p41 : s2.mem l4 (get_p4_index virt) = s1.mem l4 (get_p4_index virt) :=
    cnt_preserve h2 l4 _ hd1 hd2
  have p42 : s3.mem l4 (get_p4_index virt) = s2.mem l4 (get_p4_index virt) :=
    cnt_preserve h3 l4 _ hd2 hd3
  have p43 : writeEntry s3.mem l1t (get_p1_index virt) (phys ||| 3) l4 (get_p4_index virt)
      = s3.mem l4 (get_p4_index virt) := by
    unfold writeEntry
    rw [if_neg (fun hc => hd3 hc.1)]
  have p31 : s3.mem l3t (get_p3_index virt) = s2.mem l3t (get_p3_index virt) :=
    cnt_preserve h3 l3t _ hd4 hd5
  have p32 : writeEntry s3.mem l1t (get_p1_index virt) (phys ||| 3) l3t (get_p3_index virt)
      = s3.mem l3t (get_p3_index virt) := by
    unfold writeEntry
    rw [if_neg (fun hc => hd5 hc.1)]
  have p21 : writeEntry s3.mem l1t (get_p1_index virt) (phys ||| 3) l2t (get_p2_index virt)
      = s3.mem l2t (get_p2_index virt) := by
    unfold writeEntry
    rw [if_neg (fun hc => hd6 hc.1)]
  have pleaf : writeEntry s3.mem l1t (get_p1_index virt) (phys ||| 3) l1t (get_p1_index virt)
      = phys ||| 3 := by
    unfold writeEntry
    rw [if_pos ⟨rfl, rfl⟩]
  have a4p : entryPresent (writeEntry s3.mem l1t (get_p1_index virt) (phys ||| 3)
      l4 (get_p4_index virt)) = true := by
    rw [p43, p42, p41]; exact c1.1
  have a4a : entryAddr (writeEntry s3.mem l1t (get_p1_index virt) (phys ||| 3)
      l4 (get_p4_index virt)) = l3t := by
    rw [p43, p42, p41]; exact c1.2
  have a3p : entryPresent (writeEntry s3.mem l1t (get_p1_index virt) (phys ||| 3)
      l3t (get_p3_index virt)) = true := by
    rw [p32, p31]; exact c2.1
  have a3a : entryAddr (writeEntry s3.mem l1t (get_p1_index virt) (phys ||| 3)
      l3t (get_p3_index virt)) = l2t := by
    rw [p32, p31]; exact c2.2
  have a2p : entryPresent (writeEntry s3.mem l1t (get_p1_index virt) (phys ||| 3)
      l2t (get_p2_index virt)) = true := by
    rw [p21]; exact c3.1
  have a2a : entryAddr (writeEntry s3.mem l1t (get_p1_index virt) (phys ||| 3)
      l2t (get_p2_index virt)) = l1t := by
    rw [p21]; exact c3.2
  have a1p : entryPresent (writeEntry s3.mem l1t (get_p1_index virt) (phys ||| 3)
      l1t (get_p1_index virt)) = true := by
    rw [pleaf]; exact entryPresent_or3 phys
  have a1a : entryAddr (writeEntry s3.mem l1t (get_p1_index virt) (phys ||| 3)
      l1t (get_p1_index virt)) = phys := by
    rw [pleaf]; exact entryAddr_or3 phys hP.1 hP.2
  exact ⟨rfl, gpa_intro _ l4 virt l3t l2t l1t phys a4p a4a a3p a3a a2p a2a a1p a1a,
    pleaf, a4p, a4a, a3p, a3a, a2p, a2a⟩

/-- Claim C1: when `map_address_impl(L4, V, P)` succeeds (walk reaches a
non-present L1 entry, allocator not exhausted), with the four walk tables
at distinct addresses, page-aligned allocator frames below 2^52, and a
page-aligned `P < 2^52`, the call returns no error, afterwards
`get_physical_address(L4, V)` returns `Some P`, and the installed L1 entry
is `P | PRESENT | WRITABLE` (intermediate tables are created from the
allocator with PRESENT|WRITABLE upper entries inside
`create_next_table`). -/
theorem map_then_translate (s s1 s2 s3 : PTState) (l4 virt phys l3t l2t l1t : Nat)
    (h1 : create_next_table s l4 (get_p4_index virt) = (s1, Except.ok l3t))
    (h2 : create_next_table s1 l3t (get_p3_index virt) = (s2, Except.ok l2t))
    (h3 : create_next_table s2 l2t (get_p2_index virt) = (s3, Except.ok l1t))
    (h4 : entryPresent (s3.mem l1t (get_p1_index virt)) = false)
    (hd : l4 ≠ l3t ∧ l4 ≠ l2t ∧ l4 ≠ l1t ∧ l3t ≠ l2t ∧ l3t ≠ l1t ∧ l2t ≠ l1t)
    (hfree : ∀ f ∈ s.freeFrames, f % 4096 = 0 ∧ f < 2 ^ 52)
    (hP : phys % 4096 = 0 ∧ phys < 2 ^ 52) :
    (map_address_impl s l4 virt phys).2 = none ∧
    get_physical_address (map_address_impl s l4 virt phys).1 l4 virt = some phys ∧
    (map_address_impl s l4 virt phys).1.mem l1t (get_p1_index virt) = phys ||| 3 :=
  have r := impl_roundtrip s s1 s2 s3 l4 virt phys l3t l2t l1t h1 h2 h3 h4 hd hfree hP
  ⟨r.1, r.2.1, r.2.2.1⟩

/-- Witness for C1: scenario 3 of the spec — fresh L4 table at 0x1000,
allocator frames 0x2000/0x3000/0x4000, `V = 0xffff8000001a3000`,
`P = 0x70000000`. -/
theorem map_then_translate_witness :
    (create_next_table emptyPT 0x1000 (get_p4_index 0xffff8000001a3000) =
      ((create_next_table emptyPT 0x1000 (get_p4_index 0xffff8000001a3000)).1,
        Except.ok 0x2000) ∧
     entryPresent (((create_next_table
        (create_next_table emptyPT 0x1000 (get_p4_index 0xffff8000001a3000)).1
        0x2000 (get_p3_index 0xffff8000001a3000)).1.mem 0x3000 0)) = false) ∧
    (map_address_impl emptyPT 0x1000 0xffff8000001a3000 0x70000000).2 = none ∧
    get_physical_address
      (map_address_impl emptyPT 0x1000 0xffff8000001a3000 0x70000000).1
      0x1000 0xffff8000001a3000 = some 0x70000000 ∧
    (map_address_impl emptyPT 0x1000 0xffff8000001a3000 0x70000000).1.mem
      0x4000 (get_p1_index 0xffff8000001a3000) = 0x70000000 ||| 3 :=
  ⟨⟨rfl, rfl⟩,
    map_then_translate emptyPT
      (create_next_table emptyPT 0x1000 (get_p4_index 0xffff8000001a3000)).1
      (create_next_table
        (create_next_table emptyPT 0x1000 (get_p4_index 0xffff8000001a3000)).1
        0x2000 (get_p3_index 0xffff8000001a3000)).1
      (create_next_table (create_next_table
        (create_next_table emptyPT 0x1000 (get_p4_index 0xffff8000001a3000)).1
        0x2000 (get_p3_index 0xffff8000001a3000)).1
        0x3000 (get_p2_index 0xffff8000001a3000)).1
      0x1000 0xffff8000001a3000 0x70000000 0x2000 0x3000 0x4000
      rfl rfl rfl rfl
      (by decide)
      (by intro f hf; fin_cases hf <;> exact ⟨by norm_num, by norm_num⟩)
      ⟨by norm_num, by norm_num⟩⟩

/-- Claim C5: with the walk tables distinct, if the L1 entry the walk
reaches is already present then `map_address_impl` returns the
already-mapped error and the pre-existing L1 entry (frame and flags) is
exactly what it was before the call; if that entry is not present, the
call succeeds and in particular does not return that error. -/
theorem map_already_mapped (s s1 s2 s3 : PTState) (l4 virt phys l3t l2t l1t : Nat)
    (h1 : create_next_table s l4 (get_p4_index virt) = (s1, Except.ok l3t))
    (h2 : create_next_table s1 l3t (get_p3_index virt) = (s2, Except.ok l2t))
    (h3 : create_next_table s2 l2t (get_p2_index virt) = (s3, Except.ok l1t))
    (hd : l4 ≠ l3t ∧ l4 ≠ l2t ∧ l4 ≠ l1t ∧ l3t ≠ l2t ∧ l3t ≠ l1t ∧ l2t ≠ l1t) :
    (entryPresent (s3.mem l1t (get_p1_index virt)) = true →
      map_address_impl s l4 virt phys =
        (s3, some "this virtual address already mapped to frame") ∧
      s3.mem l1t (get_p1_index virt) = s.mem l1t (get_p1_index virt)) ∧
    (entryPresent (s3.mem l1t (get_p1_index virt)) = false →
      (map_address_impl s l4 virt phys).2 = none) := by
  obtain ⟨hd1, hd2, hd3, hd4, hd5, hd6⟩ := hd
  constructor
  · intro hp
    constructor
    · simp only [map_address_impl, h1, h2, h3, hp, if_true]
    · have hback : s3.mem l1t (get_p1_index virt) = s2.mem l1t (get_p1_index virt) := by
        rcases cnt_cases h3 with ⟨-, rfl, -⟩ | ⟨-, rest, -, rfl⟩
        · rfl
        · exfalso
          have hslot : writeEntry (clearTable s2.mem l1t) l2t (get_p2_index virt)
              (l1t ||| 3) l1t (get_p1_index virt) = 0 := by
            unfold writeEntry clearTable
            rw [if_neg (fun hc => hd6 hc.1.symm), if_pos rfl]
          have hp2 : entryPresent (writeEntry (clearTable s2.mem l1t) l2t
              (get_p2_index virt) (l1t ||| 3) l1t (get_p1_index virt)) = true := hp
          rw [hslot, entryPresent_zero] at hp2
          exact Bool.noConfusion hp2
      rw [hback,
        cnt_preserve h2 l1t _ (fun he => hd5 he.symm) (fun he => hd6 he.symm),
        cnt_preserve h1 l1t _ (fun he => hd3 he.symm) (fun he => hd5 he.symm)]
  · intro hnp
    simp only [map_address_impl, h1, h2, h3, hnp, Bool.false_eq_true, if_false]

/-- Witness for C5: pre-built tables mapping `0xffff8000001a3000` to
frame 0x5000; remapping it returns the already-mapped error and leaves the
leaf entry 0x5003 unchanged. -/
theorem map_already_mapped_witness :
    ((entryPresent (c5s0.mem 0x4000 (get_p1_index 0xffff8000001a3000)) = true →
      map_address_impl c5s0 0x1000 0xffff8000001a3000 0x70000000 =
        (c5s0, some "this virtual address already mapped to frame") ∧
      c5s0.mem 0x4000 (get_p1_index 0xffff8000001a3000) =
        c5s0.mem 0x4000 (get_p1_index 0xffff8000001a3000)) ∧
     (entryPresent (c5s0.mem 0x4000 (get_p1_index 0xffff8000001a3000)) = false →
      (map_address_impl c5s0 0x1000 0xffff8000001a3000 0x70000000).2 = none)) ∧
    entryPresent (c5s0.mem 0x4000 (get_p1_index 0xffff8000001a3000)) = true ∧
    (map_address_impl c5s0 0x1000 0xffff8000001a3000 0x70000000).2 =
      some "this virtual address already mapped to frame" :=
  ⟨map_already_mapped c5s0 c5s0 c5s0 c5s0 0x1000 0xffff8000001a3000 0x70000000
      0x2000 0x3000 0x4000 rfl rfl rfl (by decide),
    rfl, rfl⟩

lemma impl_preserve_slots (s s1 s2 s3 : PTState) (l4 virt phys l3t l2t l1t : Nat)
    (h1 : create_next_table s l4 (get_p4_index virt) = (s1, Except.ok l3t))
    (h2 : create_next_table s1 l3t (get_p3_index virt) = (s2, Except.ok l2t))
    (h3 : create_next_table s2 l2t (get_p2_index virt) = (s3, Except.ok l1t))
    (h4 : entryPresent (s3.mem l1t (get_p1_index virt)) = false)
    (v' a3 a2 a1 : Nat)
    (k4 : entryPresent (s.mem l4 (get_p4_index v')) = true)
    (k3 : entryPresent (s.mem a3 (get_p3_index v')) = true)
    (k2 : entryPresent (s.mem a2 (get_p2_index v')) = true)
    (k1 : entryPresent (s.mem a1 (get_p1_index v')) = true)
    (hA : ∀ f ∈ s.freeFrames, f ≠ l4 ∧ f ≠ a3 ∧ f ≠ a2 ∧ f ≠ a1) :
    (map_address_impl s l4 virt phys).1.mem l4 (get_p4_index v')
      = s.mem l4 (get_p4_index v') ∧
    (map_address_impl s l4 virt phys).1.mem a3 (get_p3_index v')
      = s.mem a3 (get_p3_index v') ∧
    (map_address_impl s l4 virt phys).1.mem a2 (get_p2_index v')
      = s.mem a2 (get_p2_index v') ∧
    (map_address_impl s l4 virt phys).1.mem a1 (get_p1_index v')
      = s.mem a1 (get_p1_index v') := by
  have hA1 : ∀ f ∈ s1.freeFrames, f ≠ l4 ∧ f ≠ a3 ∧ f ≠ a2 ∧ f ≠ a1 :=
    fun f hf => hA f (cnt_frames h1 f hf)
  have hA2 : ∀ f ∈ s2.freeFrames, f ≠ l4 ∧ f ≠ a3 ∧ f ≠ a2 ∧ f ≠ a1 :=
    fun f hf => hA1 f (cnt_frames h2 f hf)
  have e4a : s1.mem l4 (get_p4_index v') = s.mem l4 (get_p4_index v') :=
    cnt_preserve_present h1 l4 _ k4 (fun f hf => Ne.symm (hA f hf).1)
  have k4a : entryPresent (s1.mem l4 (get_p4_index v')) = true := by rw [e4a]; exact k4
  have e4b : s2.mem l4 (get_p4_index v') = s1.mem l4 (get_p4_index v') :=
    cnt_preserve_present h2 l4 _ k4a (fun f hf => Ne.symm (hA1 f hf).1)
  have k4b : entryPresent (s2.mem l4 (get_p4_index v')) = true := by rw [e4b]; exact k4a
  have e4c : s3.mem l4 (get_p4_index v') = s2.mem l4 (get_p4_index v') :=
    cnt_preserve_present h3 l4 _ k4b (fun f hf => Ne.symm (hA2 f hf).1)
  have k4c : entryPresent (s3.mem l4 (get_p4_index v')) = true := by rw [e4c]; exact k4b
  have e3a : s1.mem a3 (get_p3_index v') = s.mem a3 (get_p3_index v') :=
    cnt_preserve_present h1 a3 _ k3 (fun f hf => Ne.symm (hA f hf).2.1)
  have k3a : entryPresent (s1.mem a3 (get_p3_index v')) = true := by rw [e3a]; exact k3
  have e3b : s2.mem a3 (get_p3_index v') = s1.mem a3 (get_p3_index v') :=
    cnt_preserve_present h2 a3 _ k3a (fun f hf => Ne.symm (hA1 f hf).2.1)
  have k3b : entryPresent (s2.mem a3 (get_p3_index v')) = true := by rw [e3b]; exact k3a
  have e3c : s3.mem a3 (get_p3_index v') = s2.mem a3 (get_p3_index v') :=
    cnt_preserve_present h3 a3 _ k3b (fun f hf => Ne.symm (hA2 f hf).2.1)
  have k3c : entryPresent (s3.mem a3 (get_p3_index v')) = true := by rw [e3c]; exact k3b
  have e2a : s1.mem a2 (get_p2_index v') = s.mem a2 (get_p2_index v') :=
    cnt_preserve_present h1 a2 _ k2 (fun f hf => Ne.symm (hA f hf).2.2.1)
  have k2a : entryPresent (s1.mem a2 (get_p2_index v')) = true := by rw [e2a]; exact k2
  have e2b : s2.mem a2 (get_p2_index v') = s1.mem a2 (get_p2_index v') :=
    cnt_preserve_present h2 a2 _ k2a (fun f hf => Ne.symm (hA1 f hf).2.2.1)
  have k2b : entryPresent (s2.mem a2 (get_p2_index v')) = true := by rw [e2b]; exact k2a
  have e2c : s3.mem a2 (get_p2_index v') = s2.mem a2 (get_p2_index v') :=
    cnt_preserve_present h3 a2 _ k2b (fun f hf => Ne.symm (hA2 f hf).2.2.1)
  have k2c : entryPresent (s3.mem a2 (get_p2_index v')) = true := by rw [e2c]; exact k2b
  have e1a : s1.mem a1 (get_p1_index v') = s.mem a1 (get_p1_index v') :=
    cnt_preserve_present h1 a1 _ k1 (fun f hf => Ne.symm (hA f hf).2.2.2)
  have k1a : entryPresent (s1.mem a1 (get_p1_index v')) = true := by rw [e1a]; exact k1
  have e1b : s2.mem a1 (get_p1_index v') = s1.mem a1 (get_p1_index v') :=
    cnt_preserve_present h2 a1 _ k1a (fun f hf => Ne.symm (hA1 f hf).2.2.2)
  have k1b : entryPresent (s2.mem a1 (get_p1_index v')) = true := by rw [e1b]; exact k1a
  have e1c : s3.mem a1 (get_p1_index v') = s2.mem a1 (get_p1_index v') :=
    cnt_preserve_present h3 a1 _ k1b (fun f hf => Ne.symm (hA2 f hf).2.2.2)
  have k1c : entryPresent (s3.mem a1 (get_p1_index v')) = true := by rw [e1c]; exact k1b
  have wpass : ∀ X jX, entryPresent (s3.mem X jX) = true →
      writeEntry s3.mem l1t (get_p1_index virt) (phys ||| 3) X jX = s3.mem X jX := by
    intro X jX hpX
    unfold writeEntry
    by_cases hc : X = l1t ∧ jX = get_p1_index virt
    · exfalso
      rw [hc.1, hc.2] at hpX
      rw [hpX] at h4
      exact Bool.noConfusion h4
    · rw [if_neg hc]
  rw [impl_ok s s1 s2 s3 l4 virt phys l3t l2t l1t h1 h2 h3 h4]
  refine ⟨?_, ?_, ?_, ?_⟩
  · show writeEntry s3.mem l1t (get_p1_index virt) (phys ||| 3) l4 (get_p4_index v')
      = s.mem l4 (get_p4_index v')
    rw [wpass _ _ k4c, e4c, e4b, e4a]
  · show writeEntry s3.mem l1t (get_p1_index virt) (phys ||| 3) a3 (get_p3_index v')
      = s.mem a3 (get_p3_index v')
    rw [wpass _ _ k3c, e3c, e3b, e3a]
  · show writeEntry s3.mem l1t (get_p1_index virt) (phys ||| 3) a2 (get_p2_index v')
      = s.mem a2 (get_p2_index v')
    rw [wpass _ _ k2c, e2c, e2b, e2a]
  · show writeEntry s3.mem l1t (get_p1_index virt) (phys ||| 3) a1 (get_p1_index v')
      = s.mem a1 (get_p1_index v')
    rw [wpass _ _ k1c, e1c, e1b, e1a]

lemma impl_preserves_gpa (s s1 s2 s3 : PTState) (l4 virt phys l3t l2t l1t : Nat)
    (h1 : create_next_table s l4 (get_p4_index virt) = (s1, Except.ok l3t))
    (h2 : create_next_table s1 l3t (get_p3_index virt) = (s2, Except.ok l2t))
    (h3 : create_next_table s2 l2t (get_p2_index virt) = (s3, Except.ok l1t))
    (h4 : entryPresent (s3.mem l1t (get_p1_index virt)) = false)
    (v' q a3 a2 a1 : Nat)
    (ha3 : a3 = entryAddr (s.mem l4 (get_p4_index v')))
    (ha2 : a2 = entryAddr (s.mem a3 (get_p3_index v')))
    (ha1 : a1 = entryAddr (s.mem a2 (get_p2_index v')))
    (hv : get_physical_address s l4 v' = some q)
    (hA : ∀ f ∈ s.freeFrames, f ≠ l4 ∧ f ≠ a3 ∧ f ≠ a2 ∧ f ≠ a1) :
    get_physical_address (map_address_impl s l4 virt phys).1 l4 v' = some q := by
  obtain ⟨k4x, k3x, k2x, k1x, e1x⟩ := gpa_elim hv
  have k3 : entryPresent (s.mem a3 (get_p3_index v')) = true := by rw [ha3]; exact k3x
  have k2 : entryPresent (s.mem a2 (get_p2_index v')) = true := by
    rw [ha2, ha3]; exact k2x
  have k1 : entryPresent (s.mem a1 (get_p1_index v')) = true := by
    rw [ha1, ha2, ha3]; exact k1x
  have e1 : entryAddr (s.mem a1 (get_p1_index v')) = q := by
    rw [ha1, ha2, ha3]; exact e1x
  obtain ⟨E4, E3, E2, E1⟩ := impl_preserve_slots s s1 s2 s3 l4 virt phys l3t l2t l1t
    h1 h2 h3 h4 v' a3 a2 a1 k4x k3 k2 k1 hA
  exact gpa_intro _ l4 v' a3 a2 a1 q
    (by rw [E4]; exact k4x)
    (by rw [E4]; exact ha3.symm)
    (by rw [E3]; exact k3)
    (by rw [E3]; exact ha2.symm)
    (by rw [E2]; exact k2)
    (by rw [E2]; exact ha1.symm)
    (by rw [E1]; exact k1)
    (by rw [E1]; exact e1)

/-- Claim C10: a successful `map_address(L4, virt, phys)` with page-aligned
`virt` performs exactly the single `map_address_impl` call — installing the
one new L1 leaf mapping for `virt`'s page and preserving the translation of
every other previously mapped address — while for unaligned `virt` the same
call additionally installs the mapping `virt + 4096 → phys + 4096` (the
second `map_address_impl` call), again preserving all other previously
mapped translations. -/
theorem map_address_effect
    (s s1 s2 s3 sB s1b s2b s3b : PTState)
    (l4 virt phys l3t l2t l1t l3tb l2tb l1tb : Nat)
    (h1 : create_next_table s l4 (get_p4_index virt) = (s1, Except.ok l3t))
    (h2 : create_next_table s1 l3t (get_p3_index virt) = (s2, Except.ok l2t))
    (h3 : create_next_table s2 l2t (get_p2_index virt) = (s3, Except.ok l1t))
    (h4 : entryPresent (s3.mem l1t (get_p1_index virt)) = false)
    (hd : l4 ≠ l3t ∧ l4 ≠ l2t ∧ l4 ≠ l1t ∧ l3t ≠ l2t ∧ l3t ≠ l1t ∧ l2t ≠ l1t)
    (hfree : ∀ f ∈ s.freeFrames, f % 4096 = 0 ∧ f < 2 ^ 52)
    (hP : phys % 4096 = 0 ∧ phys < 2 ^ 52)
    (hsB : sB = (map_address_impl s l4 virt phys).1)
    (hu : virt % 4096 ≠ 0 →
      create_next_table sB l4 (get_p4_index (virt + 4096)) = (s1b, Except.ok l3tb) ∧
      create_next_table s1b l3tb (get_p3_index (virt + 4096)) = (s2b, Except.ok l2tb) ∧
      create_next_table s2b l2tb (get_p2_index (virt + 4096)) = (s3b, Except.ok l1tb) ∧
      entryPresent (s3b.mem l1tb (get_p1_index (virt + 4096))) = false ∧
      (l4 ≠ l3tb ∧ l4 ≠ l2tb ∧ l4 ≠ l1tb ∧ l3tb ≠ l2tb ∧ l3tb ≠ l1tb ∧ l2tb ≠ l1tb) ∧
      phys + 4096 < 2 ^ 52 ∧
      (∀ f ∈ sB.freeFrames, f ≠ l4 ∧ f ≠ l3t ∧ f ≠ l2t ∧ f ≠ l1t)) :
    (virt % 4096 = 0 →
      map_address s l4 virt phys = (sB, none) ∧
      get_physical_address sB l4 virt = some phys) ∧
    (virt % 4096 ≠ 0 →
      map_address s l4 virt phys =
        ((map_address_impl sB l4 (virt + 4096) (phys + 4096)).1, none) ∧
      get_physical_address (map_address s l4 virt phys).1 l4 virt = some phys ∧
      get_physical_address (map_address s l4 virt phys).1 l4 (virt + 4096)
        = some (phys + 4096)) ∧
    (∀ v' q a3 a2 a1 : Nat,
      a3 = entryAddr (s.mem l4 (get_p4_index v')) →
      a2 = entryAddr (s.mem a3 (get_p3_index v')) →
      a1 = entryAddr (s.mem a2 (get_p2_index v')) →
      get_physical_address s l4 v' = some q →
      (∀ f ∈ s.freeFrames, f ≠ l4 ∧ f ≠ a3 ∧ f ≠ a2 ∧ f ≠ a1) →
      get_physical_address (map_address s l4 virt phys).1 l4 v' = some q) := by
  subst hsB
  have himpl := impl_ok s s1 s2 s3 l4 virt phys l3t l2t l1t h1 h2 h3 h4
  have hrt := impl_roundtrip s s1 s2 s3 l4 virt phys l3t l2t l1t h1 h2 h3 h4 hd hfree hP
  have hmono : ∀ f ∈ (map_address_impl s l4 virt phys).1.freeFrames, f ∈ s.freeFrames := by
    rw [himpl]
    intro f hf
    exact cnt_frames h1 f (cnt_frames h2 f (cnt_frames h3 f hf))
  have hmapAligned : virt % 4096 = 0 →
      map_address s l4 virt phys = ((map_address_impl s l4 virt phys).1, none) := by
    intro hal
    simp only [map_address, himpl]
    rw [if_pos hal]
  have hmapUnaligned : virt % 4096 ≠ 0 →
      map_address s l4 virt phys =
        map_address_impl (map_address_impl s l4 virt phys).1 l4 (virt + 4096)
          (phys + 4096) := by
    intro hne
    simp only [map_address, himpl]
    rw [if_neg hne]
  refine ⟨?_, ?_, ?_⟩
  · intro hal
    exact ⟨hmapAligned hal, hrt.2.1⟩
  · intro hne
    obtain ⟨g1, g2, g3, g4, gd, gP, gA⟩ := hu hne
    have hfreeB : ∀ f ∈ (map_address_impl s l4 virt phys).1.freeFrames,
        f % 4096 = 0 ∧ f < 2 ^ 52 := fun f hf => hfree f (hmono f hf)
    have hrtB := impl_roundtrip _ s1b s2b s3b l4 (virt + 4096) (phys + 4096)
      l3tb l2tb l1tb g1 g2 g3 g4 gd hfreeB ⟨by omega, gP⟩
    have himplB := impl_ok _ s1b s2b s3b l4 (virt + 4096) (phys + 4096)
      l3tb l2tb l1tb g1 g2 g3 g4
    refine ⟨?_, ?_, ?_⟩
    · rw [hmapUnaligned hne, himplB]
    · rw [hmapUnaligned hne]
      exact impl_preserves_gpa _ s1b s2b s3b l4 (virt + 4096) (phys + 4096)
        l3tb l2tb l1tb g1 g2 g3 g4 virt phys l3t l2t l1t
        hrt.2.2.2.2.1.symm hrt.2.2.2.2.2.2.1.symm hrt.2.2.2.2.2.2.2.2.symm
        hrt.2.1 gA
    · rw [hmapUnaligned hne]
      exact hrtB.2.1
  · intro v' q a3 a2 a1 ha3 ha2 ha1 hv hA
    by_cases hal : virt % 4096 = 0
    · rw [hmapAligned hal]
      exact impl_preserves_gpa s s1 s2 s3 l4 virt phys l3t l2t l1t h1 h2 h3 h4
        v' q a3 a2 a1 ha3 ha2 ha1 hv hA
    · obtain ⟨g1, g2, g3, g4, gd, gP, gA⟩ := hu hal
      rw [hmapUnaligned hal]
      have step1 := impl_preserves_gpa s s1 s2 s3 l4 virt phys l3t l2t l1t h1 h2 h3 h4
        v' q a3 a2 a1 ha3 ha2 ha1 hv hA
      obtain ⟨k4x, k3x, k2x, k1x, e1x⟩ := gpa_elim hv
      have k3 : entryPresent (s.mem a3 (get_p3_index v')) = true := by
        rw [ha3]; exact k3x
      have k2 : entryPresent (s.mem a2 (get_p2_index v')) = true := by
        rw [ha2, ha3]; exact k2x
      have k1 : entryPresent (s.mem a1 (get_p1_index v')) = true := by
        rw [ha1, ha2, ha3]; exact k1x
      obtain ⟨E4, E3, E2, E1⟩ := impl_preserve_slots s s1 s2 s3 l4 virt phys
        l3t l2t l1t h1 h2 h3 h4 v' a3 a2 a1 k4x k3 k2 k1 hA
      have ha3B : a3 = entryAddr ((map_address_impl s l4 virt phys).1.mem l4
          (get_p4_index v')) := by rw [E4]; exact ha3
      have ha2B : a2 = entryAddr ((map_address_impl s l4 virt phys).1.mem a3
          (get_p3_index v')) := by rw [E3]; exact ha2
      have ha1B : a1 = entryAddr ((map_address_impl s l4 virt phys).1.mem a2
          (get_p2_index v')) := by rw [E2]; exact ha1
      have hAB : ∀ f ∈ (map_address_impl s l4 virt phys).1.freeFrames,
          f ≠ l4 ∧ f ≠ a3 ∧ f ≠ a2 ∧ f ≠ a1 := fun f hf => hA f (hmono f hf)
      exact impl_preserves_gpa _ s1b s2b s3b l4 (virt + 4096) (phys + 4096)
        l3tb l2tb l1tb g1 g2 g3 g4 v' q a3 a2 a1 ha3B ha2B ha1B step1 hAB

/-- Witness for C10: unaligned `virt = 0xffff8000001a3800` on a fresh L4 —
one `map_address` call maps both `virt`'s page and the following page. -/
theorem map_address_effect_witness :
    (0xffff8000001a3800 : Nat) % 4096 ≠ 0 ∧
    get_physical_address (map_address emptyPT 0x1000 0xffff8000001a3800 0x70000000).1
      0x1000 0xffff8000001a3800 = some 0x70000000 ∧
    get_physical_address (map_address emptyPT 0x1000 0xffff8000001a3800 0x70000000).1
      0x1000 (0xffff8000001a3800 + 4096) = some (0x70000000 + 4096) := by
  have hne : (0xffff8000001a3800 : Nat) % 4096 ≠ 0 := by decide
  have r := map_address_effect emptyPT
    (create_next_table emptyPT 0x1000 (get_p4_index 0xffff8000001a3800)).1
    (create_next_table
      (create_next_table emptyPT 0x1000 (get_p4_index 0xffff8000001a3800)).1
      0x2000 (get_p3_index 0xffff8000001a3800)).1
    (create_next_table (create_next_table
      (create_next_table emptyPT 0x1000 (get_p4_index 0xffff8000001a3800)).1
      0x2000 (get_p3_index 0xffff8000001a3800)).1
      0x3000 (get_p2_index 0xffff8000001a3800)).1
    (map_address_impl emptyPT 0x1000 0xffff8000001a3800 0x70000000).1
    (map_address_impl emptyPT 0x1000 0xffff8000001a3800 0x70000000).1
    (map_address_impl emptyPT 0x1000 0xffff8000001a3800 0x70000000).1
    (map_address_impl emptyPT 0x1000 0xffff8000001a3800 0x70000000).1
    0x1000 0xffff8000001a3800 0x70000000 0x2000 0x3000 0x4000 0x2000 0x3000 0x4000
    rfl rfl rfl rfl (by decide)
    (by intro f hf; fin_cases hf <;> exact ⟨by norm_num, by norm_num⟩)
    ⟨by norm_num, by norm_num⟩
    rfl
    (fun _ => ⟨rfl, rfl, rfl, rfl, by decide, by norm_num,
      fun f hf => absurd hf (List.not_mem_nil f)⟩)
  exact ⟨hne, (r.2.1 hne).2.1, (r.2.1 hne).2.2⟩

/-- Claim C2 (corrected), counterexample: the image loop of `map_kernel`
runs `1 + (0x1003 − 1)/4096 = 2` iterations, so only two image frames are
mapped (not three), and together with the one fresh frame the scenario
uses three distinct frames (not four). -/
theorem map_kernel_scenario_counts :
    (kernel_scenario (fun _ => 0)).map (fun st => st.recorded.length) = some 2 ∧
    (2 : Nat) ≠ 3 ∧
    (kernel_scenario (fun _ => 0)).map
      (fun st => ((st.recorded.map Prod.snd) ++ [0x9000]).dedup.length) = some 3 ∧
    (3 : Nat) ≠ 4 :=
  ⟨rfl, by decide, rfl, by decide⟩

/-- Claim C2 (amended): loading the scenario LOAD header
(`file_size = 0x1003`, `mem_size = 0x2000`, `virt_addr = 0x1_0000_0000`)
maps two image frames (loop bound `i in 0..(1 + (F−1+V−align_down(V))/4096)`),
remaps the last mapped page to the fresh frame 0x9000, copies the
`tail = 3` file bytes into it and zeroes its remaining 4093 bytes, so
bytes 0..0x1003 are preserved and bytes 0x1003..0x2000 read zero, using
three distinct frames in total. -/
theorem map_kernel_scenario (m0 : Nat → Nat) :
    (kernel_scenario m0).map (fun st => st.recorded)
      = some [(0x100000000, 0x400000), (0x100001000, 0x401000)] ∧
    (kernel_scenario m0).map (fun st => st.pt)
      = some [(0x100000000, 0x400000), (0x100001000, 0x9000)] ∧
    (kernel_scenario m0).map (fun st => st.free) = some [] ∧
    (∀ b : Nat, b < 0x1003 →
      (kernel_scenario m0).bind (fun st => read_virt st (0x100000000 + b))
        = some (m0 (0x400000 + b))) ∧
    (∀ b : Nat, 0x1003 ≤ b → b < 0x2000 →
      (kernel_scenario m0).bind (fun st => read_virt st (0x100000000 + b))
        = some 0) ∧
    ([0x400000, 0x401000, 0x9000] : List Nat).dedup.length = 3 := by
  have hR : kernel_scenario m0 =
      some ⟨[(0x100000000, 0x400000), (0x100001000, 0x9000)],
            [(0x100000000, 0x400000), (0x100001000, 0x401000)], [],
            zero_bytes (copy_bytes m0 0x401000 0x9000 3) 0x9003 0xFFD⟩ := rfl
  have hlk0 : pt_lookup [(0x100000000, 0x400000), (0x100001000, 0x9000)] 0x100000000
      = some 0x400000 := rfl
  have hlk1 : pt_lookup [(0x100000000, 0x400000), (0x100001000, 0x9000)] 0x100001000
      = some 0x9000 := rfl
  refine ⟨by rw [hR]; rfl, by rw [hR]; rfl, by rw [hR]; rfl, ?_, ?_, by decide⟩
  · intro b hb
    rw [hR, Option.some_bind]
    by_cases hb1 : b < 0x1000
    · have hAD : align_down (0x100000000 + b) = 0x100000000 := by
        unfold align_down; omega
      simp only [read_virt, hAD]
      rw [hlk0, Option.map_some']
      show some (zero_bytes (copy_bytes m0 0x401000 0x9000 3) 0x9003 0xFFD
        (0x400000 + (0x100000000 + b - 0x100000000))) = some (m0 (0x400000 + b))
      unfold zero_bytes copy_bytes
      rw [if_neg (by omega), if_neg (by omega)]
      exact congrArg (fun x => some (m0 x)) (by omega)
    · have hAD : align_down (0x100000000 + b) = 0x100001000 := by
        unfold align_down; omega
      simp only [read_virt, hAD]
      rw [hlk1, Option.map_some']
      show some (zero_bytes (copy_bytes m0 0x401000 0x9000 3) 0x9003 0xFFD
        (0x9000 + (0x100000000 + b - 0x100001000))) = some (m0 (0x400000 + b))
      unfold zero_bytes copy_bytes
      rw [if_neg (by omega), if_pos (by omega)]
      exact congrArg (fun x => some (m0 x)) (by omega)
  · intro b hb1 hb2
    rw [hR, Option.some_bind]
    have hAD : align_down (0x100000000 + b) = 0x100001000 := by
      unfold align_down; omega
    simp only [read_virt, hAD]
    rw [hlk1, Option.map_some']
    show some (zero_bytes (copy_bytes m0 0x401000 0x9000 3) 0x9003 0xFFD
      (0x9000 + (0x100000000 + b - 0x100001000))) = some 0
    unfold zero_bytes
    rw [if_pos (by omega)]

/-- Witness for C2 at `m0 a = a % 256` and concrete bytes. -/
theorem map_kernel_scenario_witness :
    (0x1002 : Nat) < 0x1003 ∧ (0x1003 : Nat) ≤ 0x1003 ∧ (0x1003 : Nat) < 0x2000 ∧
    (kernel_scenario (fun a => a % 256)).bind
      (fun st => read_virt st (0x100000000 + 0x1002)) = some ((0x400000 + 0x1002) % 256) ∧
    (kernel_scenario (fun a => a % 256)).bind
      (fun st => read_virt st (0x100000000 + 0x1003)) = some 0 ∧
    (kernel_scenario (fun a => a % 256)).map (fun st => st.recorded)
      = some [(0x100000000, 0x400000), (0x100001000, 0x401000)] :=
  have r := map_kernel_scenario (fun a => a % 256)
  ⟨by decide, by decide, by decide,
    r.2.2.2.1 0x1002 (by decide),
    r.2.2.2.2.1 0x1003 (by decide) (by decide),
    r.1⟩

end FerrOS
